import Mathlib

/-!
Verification of the qatool track-quality scoring specification.

The repository sources under scrutiny contain only the Streamlit UI /
spreadsheet-logging layer (`app.py`); the track-scoring core described by the
specification (parser, geometry primitives, metrics calculator, aggregator) is
not present in the sources, so those components are modelled from the spec.
Real-number quantities are embedded as exact rationals (ℚ) for the computable
layers and reals (ℝ) for derived scores; undefined measurements are `Option`.
-/

namespace QATool

/-- Modelled from the spec: one annotated bounding box at a specific frame
(spec §3 Box). The scoring core holding this type is missing from the sources. -/
structure Box where
  frame : Nat
  xtl : ℚ
  ytl : ℚ
  xbr : ℚ
  ybr : ℚ
  outside : Nat
  occluded : Nat
  attributes : List (String × String)
deriving DecidableEq

/-- Modelled from the spec: derived width `max(0, xbr-xtl)` (spec §3). -/
def Box.width (b : Box) : ℚ := max 0 (b.xbr - b.xtl)

/-- Modelled from the spec: derived height `max(0, ybr-ytl)` (spec §3). -/
def Box.height (b : Box) : ℚ := max 0 (b.ybr - b.ytl)

/-- Modelled from the spec: derived area `width*height` (spec §3). -/
def Box.area (b : Box) : ℚ := b.width * b.height

/-- Modelled from the spec: center midpoint of the box (spec §3, §4.2). -/
def Box.center (b : Box) : ℚ × ℚ := ((b.xtl + b.xbr) / 2, (b.ytl + b.ybr) / 2)

/-- Modelled from the spec: aspect ratio `width/height`, defined only when
`height > 0`; callers guard the undefined case explicitly (spec §4.2). -/
def Box.aspectRatio (b : Box) : ℚ := b.width / b.height

/-- Modelled from the spec: width of the rectangle intersection of two boxes
(`x_left = max(xtl1,xtl2)`, `x_right = min(xbr1,xbr2)`; spec §4.2). -/
def interW (a b : Box) : ℚ := min a.xbr b.xbr - max a.xtl b.xtl

/-- Modelled from the spec: height of the rectangle intersection of two boxes. -/
def interH (a b : Box) : ℚ := min a.ybr b.ybr - max a.ytl b.ytl

/-- Modelled from the spec: union area `area1 + area2 - intersection_area`. -/
def unionArea (a b : Box) : ℚ := a.area + b.area - interW a b * interH a b

/-- Modelled from the spec: overlap ratio (intersection-over-union) of two
boxes; 0 when the intersection rectangle has non-positive width or height, or
either box has non-positive area, or the union area is non-positive (spec §4.2). -/
def overlapRatio (a b : Box) : ℚ :=
  if interW a b ≤ 0 ∨ interH a b ≤ 0 ∨ a.area ≤ 0 ∨ b.area ≤ 0 then 0
  else if unionArea a b ≤ 0 then 0
  else interW a b * interH a b / unionArea a b

theorem interW_comm (a b : Box) : interW a b = interW b a := by
  unfold interW; rw [min_comm, max_comm]

theorem interH_comm (a b : Box) : interH a b = interH b a := by
  unfold interH; rw [min_comm, max_comm]

theorem unionArea_comm (a b : Box) : unionArea a b = unionArea b a := by
  unfold unionArea; rw [interW_comm, interH_comm, add_comm]

/-- The inverted example box of the spec (`xtl=100, xbr=50`, spec §8). -/
def invertedBox : Box :=
  { frame := 0, xtl := 100, ytl := 0, xbr := 50, ybr := 100,
    outside := 0, occluded := 0, attributes := [] }

/-- A plain example box used to instantiate universally quantified theorems. -/
def unitBox : Box :=
  { frame := 0, xtl := 0, ytl := 0, xbr := 10, ybr := 10,
    outside := 0, occluded := 0, attributes := [] }

/-- C3: the overlap-ratio (IoU) function is symmetric: for every pair of boxes
`a` and `b`, `ratio(a,b) = ratio(b,a)`. -/
theorem overlapRatio_symm (a b : Box) : overlapRatio a b = overlapRatio b a := by
  unfold overlapRatio
  rw [interW_comm, interH_comm, unionArea_comm]
  exact if_congr (by tauto) rfl rfl

/-- C4: whenever the intersection rectangle has non-positive width or height,
or either box has non-positive area, or the union area is non-positive, the
overlap ratio is exactly 0 (the total function raises no exception and, being
rational-valued, produces no NaN). -/
theorem overlapRatio_degenerate_eq_zero (a b : Box)
    (h : interW a b ≤ 0 ∨ interH a b ≤ 0 ∨ a.area ≤ 0 ∨ b.area ≤ 0 ∨
      unionArea a b ≤ 0) :
    overlapRatio a b = 0 := by
  unfold overlapRatio
  split_ifs with h1 h2
  · rfl
  · rfl
  · exfalso
    push_neg at h1 h2
    rcases h with h | h | h | h | h
    · linarith [h1.1]
    · linarith [h1.2.1]
    · linarith [h1.2.2.1]
    · linarith [h1.2.2.2]
    · linarith

/-- Witness for C4: the spec's inverted box (`xtl=100, xbr=50`) has width 0 and
area 0, and its overlap ratio against a concrete box is 0. -/
theorem overlapRatio_degenerate_eq_zero_witness :
    invertedBox.width = 0 ∧ invertedBox.area = 0 ∧
      overlapRatio invertedBox unitBox = 0 := by
  refine ⟨?_, ?_, overlapRatio_degenerate_eq_zero invertedBox unitBox ?_⟩
  · norm_num [invertedBox, Box.width]
  · norm_num [invertedBox, Box.area, Box.width, Box.height]
  · right; right; left
    norm_num [invertedBox, Box.area, Box.width, Box.height]

/-- Modelled from the spec: one tracked object instance across frames
(spec §3 Track). -/
structure Track where
  track_id : ℤ
  label : String
  boxes : List Box
deriving DecidableEq

/-- Modelled from the spec: a raw `box` element of the input document; required
numeric fields that are absent or unparsable as numbers are `none` (spec §4.1). -/
structure RawBox where
  frame : Option Nat
  xtl : Option ℚ
  ytl : Option ℚ
  xbr : Option ℚ
  ybr : Option ℚ
  outside : Option Nat
  occluded : Option Nat
  attributes : List (String × Option String)
deriving DecidableEq

/-- Modelled from the spec: a raw `track` node of the input document, with
optional `id` and `label` attributes (spec §4.1, §6). -/
structure RawTrackNode where
  id : Option ℤ
  label : Option String
  boxes : List RawBox
deriving DecidableEq

/-- Modelled from the spec: attribute-value normalization — an absent or
empty/whitespace-only text becomes the string `no value` (spec §4.1, §3). -/
def normalizeAttrValue : Option String → String
  | none => "no value"
  | some s => if s.trim = "" then "no value" else s

/-- Modelled from the spec: parse one raw box; if any required numeric field
(`frame, xtl, ytl, xbr, ybr`) is missing, the box is silently skipped;
`outside` and `occluded` default to 0 (spec §4.1). -/
def parseBox (rb : RawBox) : Option Box :=
  match rb.frame, rb.xtl, rb.ytl, rb.xbr, rb.ybr with
  | some f, some x1, some y1, some x2, some y2 =>
    some { frame := f, xtl := x1, ytl := y1, xbr := x2, ybr := y2,
           outside := rb.outside.getD 0, occluded := rb.occluded.getD 0,
           attributes := rb.attributes.map fun p => (p.1, normalizeAttrValue p.2) }
  | _, _, _, _, _ => none

/-- The box ordering used by the parser: ascending by frame number. -/
def frameOrder (a b : Box) : Prop := a.frame ≤ b.frame

instance : DecidableRel frameOrder := fun a b => Nat.decLe a.frame b.frame

instance : IsTotal Box frameOrder := ⟨fun a b => Nat.le_total a.frame b.frame⟩

instance : IsTrans Box frameOrder := ⟨fun _ _ _ h1 h2 => Nat.le_trans h1 h2⟩

/-- Modelled from the spec: parse one track node — `id` defaults to -1 and
`label` to the empty string when absent; unparsable boxes are dropped; the
collected boxes are sorted ascending by `frame` (spec §4.1). -/
def parseTrack (n : RawTrackNode) : Track :=
  { track_id := n.id.getD (-1), label := n.label.getD "",
    boxes := List.insertionSort frameOrder (n.boxes.filterMap parseBox) }

/-- Modelled from the spec: parse a whole (structurally valid) document into a
sequence of tracks (spec §4.1; malformed markup aborts below this abstraction). -/
def parseDocument (doc : List RawTrackNode) : List Track := doc.map parseTrack

/-- C6: for every input document and every track the parser produces from it,
the track's boxes are sorted non-decreasing by frame, regardless of the order
of the box elements in the raw document. -/
theorem parseDocument_boxes_sorted (doc : List RawTrackNode) (t : Track)
    (ht : t ∈ parseDocument doc) : List.Sorted frameOrder t.boxes := by
  rcases List.mem_map.mp ht with ⟨n, _, rfl⟩
  exact List.sorted_insertionSort frameOrder (n.boxes.filterMap parseBox)

/-- A raw document with one track whose boxes arrive out of frame order. -/
def sampleRawDoc : List RawTrackNode :=
  [{ id := some 7, label := some "car",
     boxes :=
      [{ frame := some 5, xtl := some 0, ytl := some 0, xbr := some 10,
         ybr := some 10, outside := some 0, occluded := none, attributes := [] },
       { frame := some 1, xtl := some 1, ytl := some 1, xbr := some 11,
         ybr := some 11, outside := none, occluded := some 0, attributes := [] },
       { frame := some 3, xtl := none, ytl := some 2, xbr := some 12,
         ybr := some 12, outside := some 0, occluded := some 0, attributes := [] },
       { frame := some 2, xtl := some 2, ytl := some 2, xbr := some 12,
         ybr := some 12, outside := some 0, occluded := some 0, attributes := [] }] }]

/-- Witness for C6: the parsed sample document's first track is a member of the
parser output and its boxes come out sorted by frame. -/
theorem parseDocument_boxes_sorted_witness :
    parseTrack (sampleRawDoc.get ⟨0, by decide⟩) ∈ parseDocument sampleRawDoc ∧
      List.Sorted frameOrder
        (parseTrack (sampleRawDoc.get ⟨0, by decide⟩)).boxes :=
  ⟨by decide,
    parseDocument_boxes_sorted sampleRawDoc _ (by decide)⟩

/-- Modelled from the spec: the geometry-eligible subsequence of a track's
boxes — all boxes when `ignore_outside` is false, else only boxes with
`outside == 0`, preserving frame order (spec §4.3 step 1). -/
def eligibleBoxes (ignoreOutside : Bool) (t : Track) : List Box :=
  if ignoreOutside then t.boxes.filter (fun b => b.outside == 0) else t.boxes

/-- Modelled from the spec: the list of consecutive pairs of a list
(spec §4.3 step 2, the sequential pairwise scan). -/
def consecPairs : List Box → List (Box × Box)
  | [] => []
  | [_] => []
  | a :: b :: rest => (a, b) :: consecPairs (b :: rest)

/-- Modelled from the spec: the consecutive eligible pairs with *different*
frame numbers; pairs sharing a frame number carry no temporal signal and are
skipped (spec §4.3 step 2). -/
def eligPairs (ignoreOutside : Bool) (t : Track) : List (Box × Box) :=
  (consecPairs (eligibleBoxes ignoreOutside t)).filter
    fun p => decide (p.1.frame ≠ p.2.frame)

/-- Modelled from the spec: the overlap ratios collected over the consecutive
eligible pairs (spec §4.3 step 2). -/
def overlapList (ignoreOutside : Bool) (t : Track) : List ℚ :=
  (eligPairs ignoreOutside t).map fun p => overlapRatio p.1 p.2

/-- Modelled from the spec: relative area changes `|area2-area1|/area1`, only
for pairs with `area1 > 0`; other pairs are excluded, not counted as zero
(spec §4.3 step 2). -/
def areaChangeList (ignoreOutside : Bool) (t : Track) : List ℚ :=
  (eligPairs ignoreOutside t).filterMap fun p =>
    if 0 < p.1.area then some (|p.2.area - p.1.area| / p.1.area) else none

/-- Modelled from the spec: the pooled aspect-ratio samples — both boxes of a
pair contribute when each has positive height (spec §4.3 step 2). -/
def arSampleList (ignoreOutside : Bool) (t : Track) : List ℚ :=
  (eligPairs ignoreOutside t).flatMap fun p =>
    (if 0 < p.1.height then [p.1.aspectRatio] else []) ++
      (if 0 < p.2.height then [p.2.aspectRatio] else [])

/-- Modelled from the spec: the center-to-center displacements, collected but
only retained as a derived quantity, not scored (spec §4.3 step 2). -/
def centerShiftSqList (ignoreOutside : Bool) (t : Track) : List ℚ :=
  (eligPairs ignoreOutside t).map fun p =>
    (p.2.center.1 - p.1.center.1) ^ 2 + (p.2.center.2 - p.1.center.2) ^ 2

/-- Modelled from the spec: the running missing-frame counter — for each
consecutive eligible pair, `gap = frame2 - frame1 - 1` is accumulated whenever
`gap > 0` (spec §4.3 step 2). -/
def missingFrameCount (ignoreOutside : Bool) (t : Track) : ℤ :=
  ((eligPairs ignoreOutside t).map fun p =>
    max 0 ((p.2.frame : ℤ) - (p.1.frame : ℤ) - 1)).sum

/-- Mean of a rational sample list; `none` when the sample set is empty —
undefined, not zero (spec §4.3 step 3). -/
def meanQ (l : List ℚ) : Option ℚ :=
  if l = [] then none else some (l.sum / l.length)

/-- Minimum of a rational sample list, `none` when empty. -/
def minQ (l : List ℚ) : Option ℚ :=
  match l with
  | [] => none
  | x :: xs => some (xs.foldl min x)

/-- Maximum of a rational sample list, `none` when empty. -/
def maxQ (l : List ℚ) : Option ℚ :=
  match l with
  | [] => none
  | x :: xs => some (xs.foldl max x)

/-- Modelled from the spec: fraction of collected overlap ratios at or above
the threshold; undefined when no ratios were collected (spec §4.3 step 3). -/
def consistencyRatioOf (threshold : ℚ) (ratios : List ℚ) : Option ℚ :=
  if ratios = [] then none
  else some ((ratios.countP fun r => decide (threshold ≤ r) : ℚ) / ratios.length)

/-- Sample variance (divisor `n-1`) of a rational sample list. -/
def sampleVariance (l : List ℚ) : ℚ :=
  ((l.map fun x => (x - l.sum / l.length) ^ 2).sum) / ((l.length : ℚ) - 1)

/-- Modelled from the spec: sample standard deviation of the pooled
aspect-ratio values; undefined unless at least two samples exist
(spec §4.3 step 3). -/
noncomputable def arStdOf (l : List ℚ) : Option ℝ :=
  if 2 ≤ l.length then some (Real.sqrt ((sampleVariance l : ℚ) : ℝ)) else none

/-- Modelled from the spec: `clamp01` maps a real to `[0,1]` (spec §4.3). -/
noncomputable def clamp01 (x : ℝ) : ℝ := max 0 (min 1 x)

/-- Modelled from the spec: `box_consistency_score = clamp01(avg_overlap)`,
1.0 when the average overlap is undefined (spec §4.3 step 6). -/
noncomputable def boxConsistencyScore (ignoreOutside : Bool) (t : Track) : ℝ :=
  match meanQ (overlapList ignoreOutside t) with
  | none => 1
  | some a => clamp01 (a : ℝ)

/-- Modelled from the spec: `drift_score = clamp01(consistency_ratio)`, 1.0
when undefined (spec §4.3 step 6). -/
noncomputable def driftScore (threshold : ℚ) (ignoreOutside : Bool) (t : Track) : ℝ :=
  match consistencyRatioOf threshold (overlapList ignoreOutside t) with
  | none => 1
  | some c => clamp01 (c : ℝ)

/-- Modelled from the spec:
`size_jitter_score = 1 - clamp01(mean_area_jitter / 0.30)`, 1.0 when undefined
(spec §4.3 step 6). -/
noncomputable def sizeJitterScore (ignoreOutside : Bool) (t : Track) : ℝ :=
  match meanQ (areaChangeList ignoreOutside t) with
  | none => 1
  | some j => 1 - clamp01 ((j : ℝ) / 0.30)

/-- Modelled from the spec: `ar_stability_score = 1 - clamp01(ar_std / 0.50)`,
1.0 when undefined (spec §4.3 step 6). -/
noncomputable def arStabilityScore (ignoreOutside : Bool) (t : Track) : ℝ :=
  match arStdOf (arSampleList ignoreOutside t) with
  | none => 1
  | some s => 1 - clamp01 (s / 0.50)

/-- Modelled from the spec: the normalized value an attribute name takes on a
box — absent attributes read as `no value` (spec §4.3 step 5, §3). -/
def normVal (b : Box) (name : String) : String :=
  match b.attributes.lookup name with
  | some v => v
  | none => "no value"

/-- Counts value changes against a running previous value (spec §4.3 step 5). -/
def changeCountFrom (prev : String) : List String → Nat
  | [] => 0
  | v :: vs => (if v ≠ prev then 1 else 0) + changeCountFrom v vs

/-- Modelled from the spec: change events along a value sequence; the very
first observed value is never counted as a change (spec §4.3 step 5). -/
def changeCount : List String → Nat
  | [] => 0
  | v :: vs => changeCountFrom v vs

/-- Modelled from the spec: the distinct attribute names observed anywhere on
a track (spec §4.3 step 5). -/
def attrNames (t : Track) : List String :=
  (t.boxes.flatMap fun b => b.attributes.map Prod.fst).dedup

/-- Modelled from the spec: per-attribute change counts over all boxes (not
just eligible ones) in frame order (spec §4.3 step 5). -/
def attrChangeCounts (t : Track) : List (String × Nat) :=
  (attrNames t).map fun n => (n, changeCount (t.boxes.map fun b => normVal b n))

/-- Modelled from the spec: total change events across all attribute names. -/
def totalAttrChanges (t : Track) : Nat :=
  ((attrChangeCounts t).map Prod.snd).sum

/-- Modelled from the spec: total events = boxes × distinct attribute names
(spec §4.3 step 5). -/
def totalAttrEvents (t : Track) : Nat :=
  t.boxes.length * (attrNames t).length

/-- Modelled from the spec: `attr_change_rate = total_changes/total_events`,
0 when there are no events (spec §4.3 step 5). -/
def attrChangeRate (t : Track) : ℚ :=
  if totalAttrEvents t = 0 then 0
  else (totalAttrChanges t : ℚ) / (totalAttrEvents t : ℚ)

/-- Modelled from the spec:
`attr_stability_score = 1 - clamp01(attr_change_rate / 0.30)` (spec §4.3 step 6). -/
noncomputable def attrStabilityScore (t : Track) : ℝ :=
  1 - clamp01 ((attrChangeRate t : ℝ) / 0.30)

/-- Frame of the first box of the track (0 for an empty track). -/
def firstFrame (t : Track) : Nat := (t.boxes.head?.map Box.frame).getD 0

/-- Frame of the last box of the track (0 for an empty track). -/
def lastFrame (t : Track) : Nat := (t.boxes.getLast?.map Box.frame).getD 0

/-- Modelled from the spec: `span = last_frame - first_frame + 1` over all
boxes, not just eligible ones (spec §4.3 step 4). -/
def frameSpan (t : Track) : ℤ := (lastFrame t : ℤ) - (firstFrame t : ℤ) + 1

/-- Modelled from the spec: `continuity_score = 1` if `span <= 1`, else
`1 - clamp01(missing_frame_count/span)` (spec §4.3 step 4). -/
noncomputable def continuityScore (ignoreOutside : Bool) (t : Track) : ℝ :=
  if frameSpan t ≤ 1 then 1
  else 1 - clamp01 ((missingFrameCount ignoreOutside t : ℝ) / (frameSpan t : ℝ))

/-- Weight of `box_consistency_score` in the overall score (spec §4.3 step 7). -/
def wBox : ℝ := 0.35

/-- Weight of `drift_score` in the overall score (spec §4.3 step 7). -/
def wDrift : ℝ := 0.20

/-- Weight of `size_jitter_score` in the overall score (spec §4.3 step 7). -/
def wSize : ℝ := 0.10

/-- Weight of `ar_stability_score` in the overall score (spec §4.3 step 7). -/
def wAr : ℝ := 0.05

/-- Weight of `attr_stability_score` in the overall score (spec §4.3 step 7). -/
def wAttr : ℝ := 0.10

/-- Weight of `continuity_score` in the overall score (spec §4.3 step 7). -/
def wCont : ℝ := 0.20

/-- Modelled from the spec: the weighted overall track score (spec §4.3 step 7). -/
noncomputable def overallTrackScore (threshold : ℚ) (ignoreOutside : Bool)
    (t : Track) : ℝ :=
  wBox * boxConsistencyScore ignoreOutside t +
    wDrift * driftScore threshold ignoreOutside t +
    wSize * sizeJitterScore ignoreOutside t +
    wAr * arStabilityScore ignoreOutside t +
    wAttr * attrStabilityScore t +
    wCont * continuityScore ignoreOutside t

/-- Modelled from the spec: the computed, read-only per-track record of raw
measurements, derived sub-scores and the overall score (spec §3 TrackMetrics). -/
structure TrackMetrics where
  track_id : ℤ
  box_count : Nat
  avg_overlap : Option ℚ
  min_overlap : Option ℚ
  max_overlap : Option ℚ
  consistency_ratio : Option ℚ
  mean_area_jitter : Option ℚ
  ar_std : Option ℝ
  missing_frame_count : ℤ
  attr_change_counts : List (String × Nat)
  attr_change_rate : ℚ
  box_consistency_score : ℝ
  drift_score : ℝ
  size_jitter_score : ℝ
  ar_stability_score : ℝ
  attr_stability_score : ℝ
  continuity_score : ℝ
  overall_track_score : ℝ

/-- Modelled from the spec: the Track Metrics Calculator — one track, an
overlap-consistency threshold and an ignore-outside flag in, one TrackMetrics
record out (spec §4.3). -/
noncomputable def computeTrackMetrics (threshold : ℚ) (ignoreOutside : Bool)
    (t : Track) : TrackMetrics :=
  { track_id := t.track_id
    box_count := t.boxes.length
    avg_overlap := meanQ (overlapList ignoreOutside t)
    min_overlap := minQ (overlapList ignoreOutside t)
    max_overlap := maxQ (overlapList ignoreOutside t)
    consistency_ratio := consistencyRatioOf threshold (overlapList ignoreOutside t)
    mean_area_jitter := meanQ (areaChangeList ignoreOutside t)
    ar_std := arStdOf (arSampleList ignoreOutside t)
    missing_frame_count := missingFrameCount ignoreOutside t
    attr_change_counts := attrChangeCounts t
    attr_change_rate := attrChangeRate t
    box_consistency_score := boxConsistencyScore ignoreOutside t
    drift_score := driftScore threshold ignoreOutside t
    size_jitter_score := sizeJitterScore ignoreOutside t
    ar_stability_score := arStabilityScore ignoreOutside t
    attr_stability_score := attrStabilityScore t
    continuity_score := continuityScore ignoreOutside t
    overall_track_score := overallTrackScore threshold ignoreOutside t }

theorem clamp01_nonneg (x : ℝ) : 0 ≤ clamp01 x := le_max_left 0 _

theorem clamp01_le_one (x : ℝ) : clamp01 x ≤ 1 :=
  max_le (by norm_num) (min_le_left 1 x)

theorem one_sub_clamp01_bounds (x : ℝ) :
    0 ≤ 1 - clamp01 x ∧ 1 - clamp01 x ≤ 1 := by
  have h1 := clamp01_nonneg x
  have h2 := clamp01_le_one x
  exact ⟨by linarith, by linarith⟩

theorem boxConsistencyScore_bounds (ig : Bool) (t : Track) :
    0 ≤ boxConsistencyScore ig t ∧ boxConsistencyScore ig t ≤ 1 := by
  unfold boxConsistencyScore
  cases h : meanQ (overlapList ig t) with
  | none => norm_num
  | some a => exact ⟨clamp01_nonneg _, clamp01_le_one _⟩

theorem driftScore_bounds (thr : ℚ) (ig : Bool) (t : Track) :
    0 ≤ driftScore thr ig t ∧ driftScore thr ig t ≤ 1 := by
  unfold driftScore
  cases h : consistencyRatioOf thr (overlapList ig t) with
  | none => norm_num
  | some c => exact ⟨clamp01_nonneg _, clamp01_le_one _⟩

theorem sizeJitterScore_bounds (ig : Bool) (t : Track) :
    0 ≤ sizeJitterScore ig t ∧ sizeJitterScore ig t ≤ 1 := by
  unfold sizeJitterScore
  cases h : meanQ (areaChangeList ig t) with
  | none => norm_num
  | some j => exact one_sub_clamp01_bounds _

theorem arStabilityScore_bounds (ig : Bool) (t : Track) :
    0 ≤ arStabilityScore ig t ∧ arStabilityScore ig t ≤ 1 := by
  unfold arStabilityScore
  cases h : arStdOf (arSampleList ig t) with
  | none => norm_num
  | some s => exact one_sub_clamp01_bounds _

theorem attrStabilityScore_bounds (t : Track) :
    0 ≤ attrStabilityScore t ∧ attrStabilityScore t ≤ 1 :=
  one_sub_clamp01_bounds _

theorem continuityScore_bounds (ig : Bool) (t : Track) :
    0 ≤ continuityScore ig t ∧ continuityScore ig t ≤ 1 := by
  unfold continuityScore
  split_ifs with h
  · norm_num
  · exact one_sub_clamp01_bounds _

theorem overallTrackScore_bounds (thr : ℚ) (ig : Bool) (t : Track) :
    0 ≤ overallTrackScore thr ig t ∧ overallTrackScore thr ig t ≤ 1 := by
  have h1 := boxConsistencyScore_bounds ig t
  have h2 := driftScore_bounds thr ig t
  have h3 := sizeJitterScore_bounds ig t
  have h4 := arStabilityScore_bounds ig t
  have h5 := attrStabilityScore_bounds t
  have h6 := continuityScore_bounds ig t
  unfold overallTrackScore wBox wDrift wSize wAr wAttr wCont
  constructor
  · nlinarith [h1.1, h2.1, h3.1, h4.1, h5.1, h6.1]
  · nlinarith [h1.2, h2.2, h3.2, h4.2, h5.2, h6.2,
      h1.1, h2.1, h3.1, h4.1, h5.1, h6.1]

/-- C1: for every track, the metrics calculator produces an overall score
equal to the weighted sum
`0.35·box_consistency + 0.20·drift + 0.10·size_jitter + 0.05·ar_stability +
0.10·attr_stability + 0.20·continuity`, and the six weights sum to exactly 1. -/
theorem overall_track_score_weighted_sum (thr : ℚ) (ig : Bool) (t : Track) :
    (computeTrackMetrics thr ig t).overall_track_score =
      0.35 * (computeTrackMetrics thr ig t).box_consistency_score +
        0.20 * (computeTrackMetrics thr ig t).drift_score +
        0.10 * (computeTrackMetrics thr ig t).size_jitter_score +
        0.05 * (computeTrackMetrics thr ig t).ar_stability_score +
        0.10 * (computeTrackMetrics thr ig t).attr_stability_score +
        0.20 * (computeTrackMetrics thr ig t).continuity_score ∧
      wBox + wDrift + wSize + wAr + wAttr + wCont = 1 :=
  ⟨rfl, by norm_num [wBox, wDrift, wSize, wAr, wAttr, wCont]⟩

/-- C2: for every track processed by the metrics calculator, every sub-score
and the overall score lie in the closed interval `[0,1]`. -/
theorem trackMetrics_scores_in_unit_interval (thr : ℚ) (ig : Bool) (t : Track) :
    (0 ≤ (computeTrackMetrics thr ig t).box_consistency_score ∧
        (computeTrackMetrics thr ig t).box_consistency_score ≤ 1) ∧
      (0 ≤ (computeTrackMetrics thr ig t).drift_score ∧
        (computeTrackMetrics thr ig t).drift_score ≤ 1) ∧
      (0 ≤ (computeTrackMetrics thr ig t).size_jitter_score ∧
        (computeTrackMetrics thr ig t).size_jitter_score ≤ 1) ∧
      (0 ≤ (computeTrackMetrics thr ig t).ar_stability_score ∧
        (computeTrackMetrics thr ig t).ar_stability_score ≤ 1) ∧
      (0 ≤ (computeTrackMetrics thr ig t).attr_stability_score ∧
        (computeTrackMetrics thr ig t).attr_stability_score ≤ 1) ∧
      (0 ≤ (computeTrackMetrics thr ig t).continuity_score ∧
        (computeTrackMetrics thr ig t).continuity_score ≤ 1) ∧
      (0 ≤ (computeTrackMetrics thr ig t).overall_track_score ∧
        (computeTrackMetrics thr ig t).overall_track_score ≤ 1) :=
  ⟨boxConsistencyScore_bounds ig t, driftScore_bounds thr ig t,
    sizeJitterScore_bounds ig t, arStabilityScore_bounds ig t,
    attrStabilityScore_bounds t, continuityScore_bounds ig t,
    overallTrackScore_bounds thr ig t⟩

/-- C5: a track with exactly one geometry-eligible box receives
`box_consistency_score = drift_score = size_jitter_score = ar_stability_score
= 1` under the undefined-measurement-to-perfect-score policy. -/
theorem single_eligible_box_perfect_scores (thr : ℚ) (ig : Bool) (t : Track)
    (h : (eligibleBoxes ig t).length = 1) :
    (computeTrackMetrics thr ig t).box_consistency_score = 1 ∧
      (computeTrackMetrics thr ig t).drift_score = 1 ∧
      (computeTrackMetrics thr ig t).size_jitter_score = 1 ∧
      (computeTrackMetrics thr ig t).ar_stability_score = 1 := by
  obtain ⟨a, ha⟩ := List.length_eq_one.mp h
  have hp : eligPairs ig t = [] := by
    unfold eligPairs
    rw [ha]
    rfl
  have hov : overlapList ig t = [] := by
    unfold overlapList
    rw [hp]
    rfl
  have hac : areaChangeList ig t = [] := by
    unfold areaChangeList
    rw [hp]
    rfl
  have har : arSampleList ig t = [] := by
    unfold arSampleList
    rw [hp]
    rfl
  refine ⟨?_, ?_, ?_, ?_⟩
  · show boxConsistencyScore ig t = 1
    unfold boxConsistencyScore
    rw [hov]
    rfl
  · show driftScore thr ig t = 1
    unfold driftScore
    rw [hov]
    rfl
  · show sizeJitterScore ig t = 1
    unfold sizeJitterScore
    rw [hac]
    rfl
  · show arStabilityScore ig t = 1
    unfold arStabilityScore
    rw [har]
    rfl

/-- A track holding a single box, used to instantiate C5. -/
def singleBoxTrack : Track := { track_id := 1, label := "person", boxes := [unitBox] }

/-- Witness for C5: the one-box sample track has exactly one eligible box and
all four geometry sub-scores equal to 1. -/
theorem single_eligible_box_perfect_scores_witness :
    (eligibleBoxes true singleBoxTrack).length = 1 ∧
      ((computeTrackMetrics (7 / 10) true singleBoxTrack).box_consistency_score = 1 ∧
        (computeTrackMetrics (7 / 10) true singleBoxTrack).drift_score = 1 ∧
        (computeTrackMetrics (7 / 10) true singleBoxTrack).size_jitter_score = 1 ∧
        (computeTrackMetrics (7 / 10) true singleBoxTrack).ar_stability_score = 1) :=
  ⟨by decide,
    single_eligible_box_perfect_scores (7 / 10) true singleBoxTrack (by decide)⟩

/-- Modelled from the spec: the suspicious subset — all tracks whose
`overall_track_score` is strictly below a caller-supplied cutoff, in input
order (spec §4.4). -/
noncomputable def suspiciousTracks (ms : List TrackMetrics) (cutoff : ℝ) :
    List TrackMetrics :=
  ms.filter fun m => decide (m.overall_track_score < cutoff)

/-- C7: for every set of TrackMetrics and every cutoff, the suspicious subset
contains exactly the tracks whose overall score is strictly below the cutoff,
and it is a sublist of the input (the input track order is preserved). -/
theorem suspiciousTracks_spec (ms : List TrackMetrics) (cutoff : ℝ) :
    (∀ m : TrackMetrics,
        m ∈ suspiciousTracks ms cutoff ↔
          m ∈ ms ∧ m.overall_track_score < cutoff) ∧
      (suspiciousTracks ms cutoff).Sublist ms := by
  constructor
  · intro m
    simp [suspiciousTracks, List.mem_filter]
  · exact List.filter_sublist ms

/-- Modelled from the spec: caller-supplied configuration (spec §6). -/
structure Config where
  overlap_consistency_threshold : ℚ
  ignore_outside : Bool
  suspicious_score_cutoff : ℚ
deriving DecidableEq

/-- Modelled from the spec: task-level summary statistics (spec §4.4, §6). -/
structure TaskSummary where
  track_count : Nat
  box_count : Nat
  mean_track_score : ℝ
  median_track_score : ℝ

/-- Mean of a list of reals (0 for an empty list). -/
noncomputable def meanR (l : List ℝ) : ℝ :=
  if l = [] then 0 else l.sum / l.length

/-- Median of a list of reals: middle element of the sorted list, or the
average of the two middle elements for an even length (0 when empty). -/
noncomputable def medianR (l : List ℝ) : ℝ :=
  if l = [] then 0
  else
    if l.length % 2 = 1 then
      (l.insertionSort (· ≤ ·)).getD (l.length / 2) 0
    else
      ((l.insertionSort (· ≤ ·)).getD (l.length / 2 - 1) 0 +
        (l.insertionSort (· ≤ ·)).getD (l.length / 2) 0) / 2

/-- Modelled from the spec: the Scoring Aggregator's task-level reduction —
track count, total box count, mean and median track score (spec §4.4). -/
noncomputable def summarize (ms : List TrackMetrics) : TaskSummary :=
  { track_count := ms.length
    box_count := (ms.map TrackMetrics.box_count).sum
    mean_track_score := meanR (ms.map TrackMetrics.overall_track_score)
    median_track_score := medianR (ms.map TrackMetrics.overall_track_score) }

/-- Modelled from the spec: the whole linear pipeline
Parser → Metrics Calculator per track → Aggregator (spec §2, §5): the
per-track records, the task summary, and the suspicious subset. -/
noncomputable def runPipeline (doc : List RawTrackNode) (cfg : Config) :
    List TrackMetrics × TaskSummary × List TrackMetrics :=
  let ms := (parseDocument doc).map
    (computeTrackMetrics cfg.overlap_consistency_threshold cfg.ignore_outside)
  (ms, summarize ms, suspiciousTracks ms (cfg.suspicious_score_cutoff : ℝ))

/-- C8: the pipeline is deterministic — two runs on identical input documents
and identical configuration yield identical output records. -/
theorem runPipeline_deterministic (d1 d2 : List RawTrackNode)
    (c1 c2 : Config) (hd : d1 = d2) (hc : c1 = c2) :
    runPipeline d1 c1 = runPipeline d2 c2 := by
  subst hd
  subst hc
  rfl

/-- A sample configuration with the spec's default settings (spec §6). -/
def defaultConfig : Config :=
  { overlap_consistency_threshold := 7 / 10, ignore_outside := true,
    suspicious_score_cutoff := 7 / 10 }

/-- Witness for C8: two runs of the pipeline on the concrete sample document
and default configuration coincide. -/
theorem runPipeline_deterministic_witness :
    runPipeline sampleRawDoc defaultConfig = runPipeline sampleRawDoc defaultConfig :=
  runPipeline_deterministic sampleRawDoc sampleRawDoc defaultConfig defaultConfig
    rfl rfl

/-- Embedding of `app.py`'s `build_cvat_url`: the configured `cvat.base_url`
(defaulting to the empty string when unset) is passed explicitly; Python's
falsy test on a string is the empty-string test. -/
def build_cvat_url (base task_id job_id frame : String) : Option String :=
  if base = "" ∨ task_id = "" ∨ job_id = "" ∨ frame = "" then none
  else some (base ++ "/tasks/" ++ task_id ++ "/jobs/" ++ job_id ++
    "?frame=" ++ frame)

/-- C9: `build_cvat_url` returns `none` exactly when the base URL or any of
task id, job id, frame is empty (falsy), and otherwise returns the string
`base/tasks/task_id/jobs/job_id?frame=frame`. -/
theorem build_cvat_url_spec (base task_id job_id frame : String) :
    (build_cvat_url base task_id job_id frame = none ↔
        (base = "" ∨ task_id = "" ∨ job_id = "" ∨ frame = "")) ∧
      (base ≠ "" → task_id ≠ "" → job_id ≠ "" → frame ≠ "" →
        build_cvat_url base task_id job_id frame =
          some (base ++ "/tasks/" ++ task_id ++ "/jobs/" ++ job_id ++
            "?frame=" ++ frame)) := by
  constructor
  · unfold build_cvat_url
    split_ifs with h
    · simp [h]
    · simp [h]
  · intro hb ht hj hf
    unfold build_cvat_url
    rw [if_neg]
    tauto

/-- Witness for C9: a concrete CVAT deep link is produced when all parts are
non-empty. -/
theorem build_cvat_url_spec_witness :
    build_cvat_url "https://cvat.example.com" "6057" "102345" "123" =
      some "https://cvat.example.com/tasks/6057/jobs/102345?frame=123" := by
  have h := (build_cvat_url_spec "https://cvat.example.com" "6057" "102345"
    "123").2 (by decide) (by decide) (by decide) (by decide)
  rw [h]
  rfl

/-- Embedding of the `QA_Log` worksheet header written by
`get_sheet_handles` in `app.py` (range `A1:N1`, fourteen columns). -/
def qa_log_header : List String :=
  ["timestamp", "project", "task_id", "job_id", "frame",
   "frame_url", "worker", "label", "severity", "issue_text",
   "guideline_ref", "attachment_drive_id", "attachment_view_url", "status"]

/-- Embedding of the row the Quick QA Note submission appends in `app.py`:
`drive_id or ""` / `drive_url or ""` become `Option.getD` with default `""`
(Python's `or` on an optional string collapses `None` and `""` to `""`). -/
def quick_qa_row (timestamp project task_id job_id frame link worker label
    severity issue_text guideline_ref : String)
    (drive_id drive_url : Option String) : List String :=
  [timestamp, project, task_id, job_id, frame, link, worker, label, severity,
   issue_text, guideline_ref, drive_id.getD "", drive_url.getD "", "open"]

/-- Embedding of the row the Batch Feedback loop appends in `app.py`: the two
attachment columns are always empty strings there. -/
def batch_feedback_row (timestamp project task_id job_id frame link worker
    label severity issue_text guideline_ref : String) : List String :=
  [timestamp, project, task_id, job_id, frame, link, worker, label, severity,
   issue_text, guideline_ref, "", "", "open"]

/-- C10: every row appended to the log worksheet — by the Quick QA Note
submission and by the Batch Feedback loop — has exactly 14 fields matching the
header width, starts with the timestamp, and ends with the status field
`open`; the header itself has 14 columns starting with `timestamp`. -/
theorem log_rows_have_fourteen_fields_status_open (timestamp project task_id
    job_id frame link worker label severity issue_text guideline_ref : String)
    (drive_id drive_url : Option String) :
    (quick_qa_row timestamp project task_id job_id frame link worker label
        severity issue_text guideline_ref drive_id drive_url).length = 14 ∧
      (quick_qa_row timestamp project task_id job_id frame link worker label
        severity issue_text guideline_ref drive_id drive_url).head? =
          some timestamp ∧
      (quick_qa_row timestamp project task_id job_id frame link worker label
        severity issue_text guideline_ref drive_id drive_url).getLast? =
          some "open" ∧
      (batch_feedback_row timestamp project task_id job_id frame link worker
        label severity issue_text guideline_ref).length = 14 ∧
      (batch_feedback_row timestamp project task_id job_id frame link worker
        label severity issue_text guideline_ref).head? = some timestamp ∧
      (batch_feedback_row timestamp project task_id job_id frame link worker
        label severity issue_text guideline_ref).getLast? = some "open" ∧
      qa_log_header.length = 14 ∧ qa_log_header.head? = some "timestamp" :=
  ⟨rfl, rfl, rfl, rfl, rfl, rfl, rfl, rfl⟩

end QATool
